import Mathlib

/-!
# Verification of the task-parsing and dispatch pipeline (src/main.py)

Shallow embedding of the data model, the NL task parser, the input
resolver/dispatcher, the task registry, and the HTTP handlers of the
Flask application, together with theorems settling the specified
properties.
-/

set_option autoImplicit false

namespace FnCall

/-- The closed operation enumeration (`class OperationType(Enum)`). -/
inductive OperationType where
  | RUN_SCRIPT
  | FORMAT_MARKDOWN
  | COUNT_WEEKDAYS
  | SORT_JSON
  | EXTRACT_RECENT_LOGS
  | CREATE_MARKDOWN_INDEX
  | EXTRACT_EMAIL_SENDER
  | EXTRACT_CREDIT_CARD
  | CALCULATE_GOLD_SALES
  | FIND_SIMILAR_COMMENTS
  deriving DecidableEq, Repr

/-- The `.value` string of each enum member. -/
def OperationType.value : OperationType → String
  | .RUN_SCRIPT => "run_script"
  | .FORMAT_MARKDOWN => "format_markdown"
  | .COUNT_WEEKDAYS => "count_weekdays"
  | .SORT_JSON => "sort_json"
  | .EXTRACT_RECENT_LOGS => "extract_recent_logs"
  | .CREATE_MARKDOWN_INDEX => "create_markdown_index"
  | .EXTRACT_EMAIL_SENDER => "extract_email_sender"
  | .EXTRACT_CREDIT_CARD => "extract_credit_card"
  | .CALCULATE_GOLD_SALES => "calculate_gold_sales"
  | .FIND_SIMILAR_COMMENTS => "find_similar_comments"

/-- The list `[op.value for op in OperationType]` used as the JSON-schema
enumeration in the function-calling payload. -/
def OperationType.values : List String :=
  ["run_script", "format_markdown", "count_weekdays", "sort_json",
   "extract_recent_logs", "create_markdown_index", "extract_email_sender",
   "extract_credit_card", "calculate_gold_sales", "find_similar_comments"]

/-- The enum constructor `OperationType(s)`: `some` member whose `.value`
is `s`, `none` when Python would raise `ValueError` (`s` out of the set). -/
def OperationType.ofValue : String → Option OperationType
  | "run_script" => some .RUN_SCRIPT
  | "format_markdown" => some .FORMAT_MARKDOWN
  | "count_weekdays" => some .COUNT_WEEKDAYS
  | "sort_json" => some .SORT_JSON
  | "extract_recent_logs" => some .EXTRACT_RECENT_LOGS
  | "create_markdown_index" => some .CREATE_MARKDOWN_INDEX
  | "extract_email_sender" => some .EXTRACT_EMAIL_SENDER
  | "extract_credit_card" => some .EXTRACT_CREDIT_CARD
  | "calculate_gold_sales" => some .CALCULATE_GOLD_SALES
  | "find_similar_comments" => some .FIND_SIMILAR_COMMENTS
  | _ => none

/-- Python dataclass `TaskParameters`: three optional fields, all
defaulting to absent. -/
structure TaskParameters where
  weekday : Option String := none
  script_url : Option String := none
  llm_instruction : Option String := none
  deriving DecidableEq, Repr

/-- Python dataclass `ParsedTask`. -/
structure ParsedTask where
  input_files : List String
  operation : OperationType
  parameters : TaskParameters
  output_file : String
  deriving DecidableEq, Repr

/-- A TaskRecord: the dict `{'status': ..., 'output_path': ..., 'error': ...}`
stored per task id by `TaskManager`. -/
structure TaskRecord where
  status : String
  output_path : String
  error : Option String
  deriving DecidableEq, Repr

/-- The `TaskManager.tasks` dict, as a partial map from task id to record. -/
def Registry : Type := String → Option TaskRecord

/-- The empty registry (`self.tasks = {}`). -/
def Registry.empty : Registry := fun _ => none

/-- Embeds `TaskManager.create_task`: unconditionally stores a fresh
record with status `pending` and no error under `task_id`. -/
def create_task (reg : Registry) (task_id output_path : String) : Registry :=
  fun k => if k = task_id then some ⟨"pending", output_path, none⟩ else reg k

/-- Embeds `TaskManager.update_task`: if `task_id` is a key of the dict, overwrite
its `status` and `error` fields (keeping `output_path`); otherwise do
nothing.  There is no check that the record is still pending. -/
def update_task (reg : Registry) (task_id status : String)
    (error : Option String) : Registry :=
  match reg task_id with
  | none => reg
  | some r => fun k => if k = task_id then some ⟨status, r.output_path, error⟩ else reg k

/-- Embeds `TaskManager.get_task`: `self.tasks.get(task_id, None)`. -/
def get_task (reg : Registry) (task_id : String) : Option TaskRecord :=
  reg task_id

/-- The Python exceptions that can escape `parse_task_description` and
`execute`.  `runtimeError` is the kind the two `except` clauses of
`parse_task_description` deliberately raise (`raise RuntimeError(...)`);
the other constructors are raw exceptions that propagate uncaught. -/
inductive PyExc where
  | runtimeError (msg : String)
  | valueError (msg : String)
  | typeError (msg : String)
  | indexError (msg : String)
  | nameError (msg : String)
  deriving DecidableEq, Repr

/-- Models `str(e)`: the message used in the 400 error body and in
the `update_task` error argument. -/
def PyExc.str : PyExc → String
  | .runtimeError m => m
  | .valueError m => m
  | .typeError m => m
  | .indexError m => m
  | .nameError m => m

/-- Whether the exception is one of the two kinds the `except` clauses of
`parse_task_description` translate raw failures into (its `ParseError` /
`SchemaViolation` surface: both are raised as `RuntimeError`). -/
def PyExc.isTranslated : PyExc → Bool
  | .runtimeError _ => true
  | _ => false

/-- The `parameters` member of the decoded `arguments` object:
absent (so `arguments.get("parameters", {})` yields `{}`), an object with
the three optional known fields, or an object carrying a key that is not a
field of `TaskParameters` (then `TaskParameters(**...)` raises
`TypeError`). -/
inductive ParamsField where
  | absent
  | fields (weekday script_url llm_instruction : Option String)
  | unexpected (key : String)
  deriving DecidableEq, Repr

/-- The outcome of `json.loads` on the `arguments` string: either the
decode fails (`json.JSONDecodeError`, a `ValueError`) or it yields an
object with the schema's four members, each possibly absent. -/
inductive ArgsJson where
  | decodeError
  | obj (input_files : Option (List String)) (operation : Option String)
      (parameters : ParamsField) (output_file : Option String)
  deriving DecidableEq, Repr

/-- The body of the HTTP response after `response.raise_for_status()`
succeeded: either some key in the chain
`result['choices'][0]['message']['function_call']['arguments']` is
missing (`KeyError`), or `result['choices']` is an empty list
(`IndexError`), or the `arguments` string is reached and decoded. -/
inductive ApiResult where
  | missingKey (key : String)
  | emptyChoices
  | arguments (raw : ArgsJson)
  deriving DecidableEq, Repr

/-- The outcome of `requests.post` + `raise_for_status`: an HTTP error
(status >= 400, with the response text) or a successful response body. -/
inductive FetchResult where
  | httpError (body : String)
  | ok (result : ApiResult)
  deriving DecidableEq, Repr

/-- Embeds `TaskExecutor.parse_task_description`, as a function of the upstream
response.  Follows the `try` block and its two `except` clauses:
`requests.exceptions.HTTPError` and `KeyError` are re-raised as
`RuntimeError`; every other exception (JSON decode failure, the
`ValueError` from `OperationType(...)` on an out-of-enumeration string,
the `TypeError` from `TaskParameters(**...)` on an unexpected key, the
`IndexError` from `['choices'][0]`) propagates raw.  The keyword
arguments of `ParsedTask(...)` are evaluated left to right:
`input_files`, `operation`, `parameters`, `output_file`. -/
def parse_task_description (resp : FetchResult) : Except PyExc ParsedTask :=
  match resp with
  | .httpError body => .error (.runtimeError ("AI Proxy error: " ++ body))
  | .ok (.missingKey k) => .error (.runtimeError ("Malformed API response: " ++ k))
  | .ok .emptyChoices => .error (.indexError "list index out of range")
  | .ok (.arguments .decodeError) =>
      .error (.valueError "Expecting value: line 1 column 1 (char 0)")
  | .ok (.arguments (.obj ifiles op? params out?)) =>
      let input_files := ifiles.getD []
      match op? with
      | none => .error (.runtimeError "Malformed API response: operation")
      | some s =>
        match OperationType.ofValue s with
        | none => .error (.valueError (s ++ " is not a valid OperationType"))
        | some op =>
          match params with
          | .unexpected k =>
              .error (.typeError ("unexpected keyword argument " ++ k))
          | .absent =>
            match out? with
            | none => .error (.runtimeError "Malformed API response: output_file")
            | some outf => .ok ⟨input_files, op, ⟨none, none, none⟩, outf⟩
          | .fields w su li =>
            match out? with
            | none => .error (.runtimeError "Malformed API response: output_file")
            | some outf => .ok ⟨input_files, op, ⟨w, su, li⟩, outf⟩

/-- The whitespace characters stripped by Python `str.strip()` (for ASCII
text) and matched by a whitespace class in a date-format pattern. -/
def isPySpace (c : Char) : Bool :=
  c = ' ' || c = '\t' || c = '\n' || c = '\x0b' || c = '\x0c' || c = '\r'

/-- Models `line.strip()`: drop leading and trailing whitespace. -/
def pyStrip (s : String) : String :=
  String.mk (((s.toList.dropWhile isPySpace).reverse.dropWhile isPySpace).reverse)

/-- Models `str.capitalize()` (as used in `weekday.capitalize()`): the
first character is uppercased and every remaining character is
lowercased. -/
def pyCapitalize (s : String) : String :=
  match s.toList with
  | [] => ""
  | c :: rest => String.mk (c.toUpper :: rest.map Char.toLower)

/-- Models `os.path.dirname` (posixpath): take everything up to and
including the last slash, then, when that head is non-empty and not made
of slashes only, strip its trailing slashes. -/
def dirname (p : String) : String :=
  let cs := p.toList
  let tailLen := (cs.reverse.takeWhile (fun c => c ≠ '/')).length
  let head := cs.take (cs.length - tailLen)
  let head :=
    if head ≠ [] ∧ head.any (fun c => c ≠ '/') then
      (head.reverse.dropWhile (fun c => c = '/')).reverse
    else head
  String.mk head

/-- A calendar date, the part of a Python `datetime` that determines
`strftime("%A")`.  The time-of-day fields parsed by the fourth format are
validated during parsing and discarded. -/
structure PyDate where
  year : Nat
  month : Nat
  day : Nat
  deriving DecidableEq, Repr

/-- The numeric value of a decimal digit character. -/
def digitVal (c : Char) : Nat := c.toNat - 48

/-- A directive matching exactly four digits (the `%Y` pattern of
`strptime`). -/
def parseY : List Char → Option (Nat × List Char)
  | a :: b :: c :: d :: rest =>
    if a.isDigit && b.isDigit && c.isDigit && d.isDigit then
      some (digitVal a * 1000 + digitVal b * 100 + digitVal c * 10 + digitVal d, rest)
    else none
  | _ => none

/-- The `%m` pattern of `strptime`: a one- or two-digit month between 1
and 12, two-digit forms preferred. -/
def parseMonthNum : List Char → Option (Nat × List Char)
  | '1' :: c :: rest =>
    if '0' ≤ c && c ≤ '2' then some (10 + digitVal c, rest)
    else some (1, c :: rest)
  | '0' :: c :: rest =>
    if '1' ≤ c && c ≤ '9' then some (digitVal c, rest) else none
  | c :: rest =>
    if '1' ≤ c && c ≤ '9' then some (digitVal c, rest) else none
  | [] => none

/-- The `%d` pattern of `strptime`: a one- or two-digit day between 1 and
31, two-digit forms preferred. -/
def parseDayNum : List Char → Option (Nat × List Char)
  | '3' :: c :: rest =>
    if c = '0' || c = '1' then some (30 + digitVal c, rest)
    else some (3, c :: rest)
  | c1 :: c2 :: rest =>
    if ('1' ≤ c1 && c1 ≤ '2') && c2.isDigit then
      some (digitVal c1 * 10 + digitVal c2, rest)
    else if c1 = '0' && ('1' ≤ c2 && c2 ≤ '9') then
      some (digitVal c2, rest)
    else if '1' ≤ c1 && c1 ≤ '9' then
      some (digitVal c1, c2 :: rest)
    else none
  | [c] => if '1' ≤ c && c ≤ '9' then some (digitVal c, []) else none
  | [] => none

/-- The abbreviated month names recognised by the `%b` directive, with
their month numbers. -/
def monthAbbrs : List (String × Nat) :=
  [("jan", 1), ("feb", 2), ("mar", 3), ("apr", 4), ("may", 5), ("jun", 6),
   ("jul", 7), ("aug", 8), ("sep", 9), ("oct", 10), ("nov", 11), ("dec", 12)]

/-- The `%b` pattern of `strptime`: a three-letter month abbreviation,
matched case-insensitively. -/
def parseMonthAbbr : List Char → Option (Nat × List Char)
  | a :: b :: c :: rest =>
    (monthAbbrs.lookup (String.mk [a.toLower, b.toLower, c.toLower])).map
      (fun m => (m, rest))
  | _ => none

/-- The `%H` pattern of `strptime`: a one- or two-digit hour between 0
and 23, two-digit forms preferred. -/
def parseHour : List Char → Option (Nat × List Char)
  | '2' :: c :: rest =>
    if '0' ≤ c && c ≤ '3' then some (20 + digitVal c, rest)
    else some (2, c :: rest)
  | c1 :: c2 :: rest =>
    if (c1 = '0' || c1 = '1') && c2.isDigit then
      some (digitVal c1 * 10 + digitVal c2, rest)
    else if c1.isDigit then some (digitVal c1, c2 :: rest)
    else none
  | [c] => if c.isDigit then some (digitVal c, []) else none
  | [] => none

/-- The `%M` and `%S` patterns of `strptime`: a one- or two-digit value
between 0 and 59, two-digit forms preferred. -/
def parseMinSec : List Char → Option (Nat × List Char)
  | c1 :: c2 :: rest =>
    if ('0' ≤ c1 && c1 ≤ '5') && c2.isDigit then
      some (digitVal c1 * 10 + digitVal c2, rest)
    else if c1.isDigit then some (digitVal c1, c2 :: rest)
    else none
  | [c] => if c.isDigit then some (digitVal c, []) else none
  | [] => none

/-- A literal character of a `strptime` format. -/
def expectChar (c : Char) : List Char → Option (List Char)
  | x :: rest => if x = c then some rest else none
  | [] => none

/-- A whitespace character of a `strptime` format, which matches one or
more whitespace characters of the input. -/
def parseWs : List Char → Option (List Char)
  | x :: rest => if isPySpace x then some (rest.dropWhile isPySpace) else none
  | [] => none

/-- Gregorian leap-year rule used by `datetime`. -/
def isLeapYear (y : Nat) : Bool :=
  y % 4 = 0 && (y % 100 ≠ 0 || y % 400 = 0)

/-- Number of days in a month, as validated by the `datetime`
constructor. -/
def daysInMonth (y m : Nat) : Nat :=
  if m = 2 then (if isLeapYear y then 29 else 28)
  else if m = 4 || m = 6 || m = 9 || m = 11 then 30
  else 31

/-- The validation performed by the `datetime` constructor: the year must
be between 1 and 9999 and the day must exist in the month; otherwise
`strptime` raises `ValueError`. -/
def mkDate (y m d : Nat) : Option PyDate :=
  if 1 ≤ y && y ≤ 9999 && 1 ≤ m && m ≤ 12 && 1 ≤ d && d ≤ daysInMonth y m then
    some ⟨y, m, d⟩
  else none

/-- Format `"%Y-%m-%d"`; the whole input must be consumed. -/
def strptimeYmd (cs : List Char) : Option PyDate := do
  let (y, cs) ← parseY cs
  let cs ← expectChar '-' cs
  let (m, cs) ← parseMonthNum cs
  let cs ← expectChar '-' cs
  let (d, cs) ← parseDayNum cs
  if cs = [] then mkDate y m d else none

/-- Format `"%d-%b-%Y"`; the whole input must be consumed. -/
def strptimeDbY (cs : List Char) : Option PyDate := do
  let (d, cs) ← parseDayNum cs
  let cs ← expectChar '-' cs
  let (m, cs) ← parseMonthAbbr cs
  let cs ← expectChar '-' cs
  let (y, cs) ← parseY cs
  if cs = [] then mkDate y m d else none

/-- Format `"%b %d, %Y"`; the whole input must be consumed. -/
def strptimeBdY (cs : List Char) : Option PyDate := do
  let (m, cs) ← parseMonthAbbr cs
  let cs ← parseWs cs
  let (d, cs) ← parseDayNum cs
  let cs ← expectChar ',' cs
  let cs ← parseWs cs
  let (y, cs) ← parseY cs
  if cs = [] then mkDate y m d else none

/-- Format `"%Y/%m/%d %H:%M:%S"`; the time fields are validated and
discarded; the whole input must be consumed. -/
def strptimeYmdHMS (cs : List Char) : Option PyDate := do
  let (y, cs) ← parseY cs
  let cs ← expectChar '/' cs
  let (m, cs) ← parseMonthNum cs
  let cs ← expectChar '/' cs
  let (d, cs) ← parseDayNum cs
  let cs ← parseWs cs
  let (_h, cs) ← parseHour cs
  let cs ← expectChar ':' cs
  let (_mi, cs) ← parseMinSec cs
  let cs ← expectChar ':' cs
  let (_s, cs) ← parseMinSec cs
  if cs = [] then mkDate y m d else none

/-- The format loop of `count_weekdays`: try the four formats in order
and keep the first successful parse; `none` when every format raises
`ValueError`, in which case the line is skipped. -/
def strptimeAny (line : String) : Option PyDate :=
  let cs := line.toList
  (strptimeYmd cs).orElse fun _ =>
    (strptimeDbY cs).orElse fun _ =>
      (strptimeBdY cs).orElse fun _ =>
        strptimeYmdHMS cs

/-- Models `date.strftime("%A")`: the full weekday name, computed with
the standard day-of-week formula over the proleptic Gregorian calendar
(which is the calendar `datetime` uses). -/
def dayOfWeekName (dt : PyDate) : String :=
  let t := [0, 3, 2, 5, 0, 3, 5, 1, 4, 6, 2, 4]
  let y := if dt.month < 3 then dt.year - 1 else dt.year
  let w := (y + y / 4 - y / 100 + y / 400 + t.getD (dt.month - 1) 0 + dt.day) % 7
  ["Sunday", "Monday", "Tuesday", "Wednesday", "Thursday", "Friday",
   "Saturday"].getD w ""

/-- Embeds `TaskExecutor.count_weekdays` as a function from the lines of
the input file to the count: the weekday argument is capitalized once,
each line is stripped, parsed by the first matching format, and counted
when its weekday name equals the capitalized target. -/
def count_weekdays (lines : List String) (weekday : String) : Nat :=
  let w := pyCapitalize weekday
  lines.countP fun line =>
    match strptimeAny (pyStrip line) with
    | some dt => dayOfWeekName dt == w
    | none => false

/-- The string `str(count)` that `count_weekdays` writes to the output
file. -/
def count_weekdays_output (lines : List String) (weekday : String) : String :=
  toString (count_weekdays lines weekday)

/-- The handler methods of `TaskExecutor` that appear as values of
`handler_map`. -/
inductive HandlerTag where
  | format_markdown
  | count_weekdays
  | sort_contacts
  | extract_recent_logs
  | create_markdown_index
  | extract_email_sender
  | extract_credit_card
  | calculate_gold_sales
  | find_similar_comments
  deriving DecidableEq, Repr

/-- The `handler_map` dict built inside `TaskExecutor.execute`: nine
entries; `RUN_SCRIPT` has no entry. -/
def handler_map : OperationType → Option HandlerTag
  | .FORMAT_MARKDOWN => some .format_markdown
  | .COUNT_WEEKDAYS => some .count_weekdays
  | .SORT_JSON => some .sort_contacts
  | .EXTRACT_RECENT_LOGS => some .extract_recent_logs
  | .CREATE_MARKDOWN_INDEX => some .create_markdown_index
  | .EXTRACT_EMAIL_SENDER => some .extract_email_sender
  | .EXTRACT_CREDIT_CARD => some .extract_credit_card
  | .CALCULATE_GOLD_SALES => some .calculate_gold_sales
  | .FIND_SIMILAR_COMMENTS => some .find_similar_comments
  | .RUN_SCRIPT => none

/-- The `task_data_dirs` dict built inside `TaskExecutor.execute`: nine
entries; `RUN_SCRIPT` has no entry. -/
def task_data_dirs : OperationType → Option String
  | .FORMAT_MARKDOWN => some "./data/docs/agent/director.md"
  | .COUNT_WEEKDAYS => some "./data/dates"
  | .SORT_JSON => some "./data/contacts.json"
  | .EXTRACT_RECENT_LOGS => some "/data/logs"
  | .CREATE_MARKDOWN_INDEX => some "/data/docs"
  | .EXTRACT_EMAIL_SENDER => some "/data/emails"
  | .EXTRACT_CREDIT_CARD => some "/data/images"
  | .CALCULATE_GOLD_SALES => some "/data/databases"
  | .FIND_SIMILAR_COMMENTS => some "/data/comments"
  | .RUN_SCRIPT => none

/-- Python `x or default` over an optional string: the default is taken
when the value is `None` or the empty string. -/
def pyOr (v : Option String) (dflt : String) : String :=
  match v with
  | none => dflt
  | some s => if s = "" then dflt else s

/-- The input-path resolution of `TaskExecutor.execute`:
`parsed.input_files[0] if parsed.input_files else
task_data_dirs.get(parsed.operation, "")`. -/
def resolved_input_path (parsed : ParsedTask) : String :=
  match parsed.input_files with
  | p :: _ => p
  | [] => (task_data_dirs parsed.operation).getD ""

/-- The handler call issued at the bottom of `TaskExecutor.execute`,
with the concrete arguments passed to the handler. -/
inductive Invocation where
  | count_weekdays_call (input weekday output : String)
  | dir_call (tag : HandlerTag) (dir output : String)
  | file_call (tag : HandlerTag) (input output : String)
  deriving DecidableEq, Repr

/-- The input-path (first) argument of a handler call. -/
def Invocation.inputPath : Invocation → String
  | .count_weekdays_call i _ _ => i
  | .dir_call _ d _ => d
  | .file_call _ i _ => i

/-- Whether the handler call received a directory reduced by
`os.path.dirname`. -/
def Invocation.isDirCall : Invocation → Bool
  | .dir_call _ _ _ => true
  | _ => false

/-- The dispatch portion of `TaskExecutor.execute` (everything after
parsing and before the handler body runs): unsupported-operation check
against `handler_map`, input-path resolution with the empty-path check,
then selection of the handler call, applying `os.path.dirname` for
`EXTRACT_RECENT_LOGS` and `CREATE_MARKDOWN_INDEX` and the
`weekday or "Wednesday"` default for `COUNT_WEEKDAYS`. -/
def resolve_invocation (parsed : ParsedTask) : Except PyExc Invocation :=
  match handler_map parsed.operation with
  | none =>
    .error (.valueError ("Unsupported operation: " ++ parsed.operation.value))
  | some tag =>
    if resolved_input_path parsed = "" then
      .error (.valueError
        ("No valid input path found for operation: " ++ parsed.operation.value))
    else if parsed.operation = OperationType.COUNT_WEEKDAYS then
      .ok (.count_weekdays_call (resolved_input_path parsed)
        (pyOr parsed.parameters.weekday "Wednesday") parsed.output_file)
    else if parsed.operation = OperationType.EXTRACT_RECENT_LOGS ∨
        parsed.operation = OperationType.CREATE_MARKDOWN_INDEX then
      .ok (.dir_call tag (dirname (resolved_input_path parsed)) parsed.output_file)
    else
      .ok (.file_call tag (resolved_input_path parsed) parsed.output_file)

/-- Embeds `TaskExecutor.execute`: parse the description, resolve the
handler call, then run the handler.  The handler bodies perform file
system and process effects, so their outcome is supplied as the oracle
`run`; a handler failure is a raised exception. -/
def execute (resp : FetchResult) (run : Invocation → Except PyExc Unit) :
    Except PyExc Unit := do
  let parsed ← parse_task_description resp
  let inv ← resolve_invocation parsed
  run inv

/-- A JSON response body of the Flask app. -/
inductive ResponseBody where
  | errorMsg (msg : String)
  | taskIdBody (task_id : String)
  | contentBody (content : String)
  deriving DecidableEq, Repr

/-- An HTTP response: status code and JSON body. -/
structure HttpResponse where
  status : Nat
  body : ResponseBody
  deriving DecidableEq, Repr

/-- The module-level constant `RESULTS_DIR`. -/
def RESULTS_DIR : String := "./task_results"

/-- Embeds the `POST /tasks` handler `handle_task`, as a function of the
registry, the generated uuid, the upstream parser response and the
handler oracle.  The call `executor.execute(task_desc)` runs
synchronously inside the request: on any exception the request returns
400 with `str(e)` and no record is created; on success a record is
created and a background thread is started (the returned flag). -/
def handle_task (reg : Registry) (task_id : String) (resp : FetchResult)
    (run : Invocation → Except PyExc Unit) : HttpResponse × Registry × Bool :=
  let output_path := RESULTS_DIR ++ "/" ++ task_id ++ ".out"
  match execute resp run with
  | .error e => (⟨400, .errorMsg e.str⟩, reg, false)
  | .ok _ => (⟨202, .taskIdBody task_id⟩, create_task reg task_id output_path, true)

/-- Embeds the thread body `background_task` spawned by `handle_task`.
Its `try` block evaluates `executor.execute_parsed(parsed, user_email)`;
neither the names `parsed` and `user_email` nor a method
`execute_parsed` exist anywhere in the module, so evaluating the name
`parsed` raises `NameError` unconditionally, and the `except` clause
records it with `update_task(task_id, "error", str(e))`.  The
`update_task(task_id, "completed")` call is unreachable. -/
def background_task (reg : Registry) (task_id : String) : Registry :=
  update_task reg task_id "error" (some "name parsed is not defined")

/-- The possible outcomes of `open(file_path).read()` for a path. -/
inductive FsOutcome where
  | content (s : String)
  | fileNotFound
  | ioError (msg : String)
  deriving DecidableEq, Repr

/-- Embeds the `GET /read` handler `read_file`, as a function of the
optional `path` query parameter and a file-system oracle.  The Python
guard `if not file_path` catches both a missing parameter (`None`) and
an empty string, returning 400 before any file access; otherwise
`FileNotFoundError` maps to 404 and any other exception to 500. -/
def read_file (pathParam : Option String) (fs : String → FsOutcome) :
    HttpResponse :=
  match pathParam with
  | none => ⟨400, .errorMsg "Missing path parameter"⟩
  | some p =>
    if p = "" then ⟨400, .errorMsg "Missing path parameter"⟩
    else
      match fs p with
      | .content c => ⟨200, .contentBody c⟩
      | .fileNotFound => ⟨404, .errorMsg "File not found"⟩
      | .ioError m => ⟨500, .errorMsg m⟩

/-- The upstream responses on which the raised exception is one the
`except` clauses of `parse_task_description` translate (an HTTP error, a
missing key in the response chain, or a well-formed arguments object
lacking `operation` or `output_file`).  On every other failing response
the raised exception propagates raw. -/
def translatedCause : FetchResult → Bool
  | .httpError _ => true
  | .ok (.missingKey _) => true
  | .ok .emptyChoices => false
  | .ok (.arguments .decodeError) => false
  | .ok (.arguments (.obj _ op? params out?)) =>
    match op? with
    | none => true
    | some s =>
      match OperationType.ofValue s with
      | none => false
      | some _ =>
        match params with
        | .unexpected _ => false
        | _ => out?.isNone

/-! ## Theorems -/

/-- Unfolding lemma: when a handler is registered for the operation,
`resolve_invocation` is the if-chain over the resolved input path. -/
theorem resolve_invocation_of_handler (parsed : ParsedTask) (tag : HandlerTag)
    (hreg : handler_map parsed.operation = some tag) :
    resolve_invocation parsed =
      (if resolved_input_path parsed = "" then
        .error (.valueError
          ("No valid input path found for operation: " ++ parsed.operation.value))
      else if parsed.operation = OperationType.COUNT_WEEKDAYS then
        .ok (.count_weekdays_call (resolved_input_path parsed)
          (pyOr parsed.parameters.weekday "Wednesday") parsed.output_file)
      else if parsed.operation = OperationType.EXTRACT_RECENT_LOGS ∨
          parsed.operation = OperationType.CREATE_MARKDOWN_INDEX then
        .ok (.dir_call tag (dirname (resolved_input_path parsed)) parsed.output_file)
      else
        .ok (.file_call tag (resolved_input_path parsed) parsed.output_file)) := by
  unfold resolve_invocation
  rw [hreg]

/-- C9: for the weekday-count operation counting Wednesdays over an
input file whose lines are the dates 2024-01-03, 2024-01-10, 2024-01-11
(the first two being Wednesdays), the operation writes exactly the
string "2" to the output file. -/
theorem c9_count_wednesdays_scenario :
    count_weekdays_output ["2024-01-03", "2024-01-10", "2024-01-11"] "Wednesday" = "2"
    ∧ dayOfWeekName ⟨2024, 1, 3⟩ = "Wednesday"
    ∧ dayOfWeekName ⟨2024, 1, 10⟩ = "Wednesday"
    ∧ dayOfWeekName ⟨2024, 1, 11⟩ = "Thursday" := by
  refine ⟨?_, by decide, by decide, by decide⟩
  decide

/-- C10: a GET /read request whose query string omits the path parameter
or supplies it empty returns 400 with an error message and performs no
file access (the response does not depend on the file system); a
present, non-empty path maps file-not-found to 404 and any other I/O
fault to 500 — three distinct failure modes. -/
theorem c10_read_missing_path (fs fs2 : String → FsOutcome) (p m : String) :
    read_file none fs = ⟨400, .errorMsg "Missing path parameter"⟩
    ∧ read_file (some "") fs = ⟨400, .errorMsg "Missing path parameter"⟩
    ∧ read_file none fs = read_file none fs2
    ∧ read_file (some "") fs = read_file (some "") fs2
    ∧ read_file (some p) (fun _ => .fileNotFound)
        = (if p = "" then ⟨400, .errorMsg "Missing path parameter"⟩
           else ⟨404, .errorMsg "File not found"⟩)
    ∧ read_file (some p) (fun _ => .ioError m)
        = (if p = "" then ⟨400, .errorMsg "Missing path parameter"⟩
           else ⟨500, .errorMsg m⟩) := by
  refine ⟨rfl, rfl, rfl, rfl, ?_, ?_⟩ <;>
    · by_cases h : p = "" <;> simp [read_file, h]

/-- C4 counterexample: the enumeration member RUN_SCRIPT has neither a
registered handler nor a configured default input path, so the
enumeration and the two dispatch tables are out of sync. -/
theorem c4_counterexample :
    handler_map OperationType.RUN_SCRIPT = none
    ∧ task_data_dirs OperationType.RUN_SCRIPT = none :=
  ⟨rfl, rfl⟩

/-- C4 amended: every member of the operation enumeration except
RUN_SCRIPT has both a registered handler and a configured default input
path; RUN_SCRIPT has neither (dispatch rejects it as unsupported). -/
theorem c4_amended (op : OperationType) :
    ((handler_map op).isSome ∧ (task_data_dirs op).isSome) ↔
      op ≠ OperationType.RUN_SCRIPT := by
  cases op <;> simp [handler_map, task_data_dirs]

/-- Witness for C4: the format-markdown operation has both a handler and
a default path. -/
theorem c4_amended_witness :
    (handler_map OperationType.FORMAT_MARKDOWN).isSome
    ∧ (task_data_dirs OperationType.FORMAT_MARKDOWN).isSome :=
  (c4_amended OperationType.FORMAT_MARKDOWN).mpr (by decide)

/-- C3 counterexample: a record transitioned to the terminal status
completed is overwritten by a further update call — the final status is
error, so a terminal record is not protected. -/
theorem c3_counterexample :
    get_task (update_task (create_task Registry.empty "t1" "/o") "t1" "completed" none) "t1"
      = some ⟨"completed", "/o", none⟩
    ∧ get_task (update_task (update_task (create_task Registry.empty "t1" "/o")
          "t1" "completed" none) "t1" "error" (some "boom")) "t1"
      = some ⟨"error", "/o", some "boom"⟩ := by
  exact ⟨rfl, rfl⟩

/-- C3 amended: a record is created in the pending state and an update
on an unknown task id is a no-op, but an update on any existing record
unconditionally overwrites its status and error (keeping its output
path), including records already in a terminal state — monotonicity is
not enforced by update_task. -/
theorem c3_amended (reg : Registry) (id out st : String) (err : Option String) :
    get_task (create_task reg id out) id = some ⟨"pending", out, none⟩
    ∧ (get_task reg id = none → update_task reg id st err = reg)
    ∧ (∀ r, get_task reg id = some r →
        get_task (update_task reg id st err) id = some ⟨st, r.output_path, err⟩) := by
  refine ⟨?_, ?_, ?_⟩
  · simp [get_task, create_task]
  · intro h
    unfold update_task
    rw [show reg id = none from h]
  · intro r h
    unfold update_task
    rw [show reg id = some r from h]
    simp [get_task]

/-- Witness for C3: creation, the unknown-id no-op, and the overwrite of
an existing record, at concrete inputs. -/
theorem c3_amended_witness :
    get_task (create_task Registry.empty "a" "/o") "a" = some ⟨"pending", "/o", none⟩
    ∧ update_task Registry.empty "a" "completed" none = Registry.empty
    ∧ get_task (update_task (create_task Registry.empty "a" "/o") "a" "completed" none) "a"
      = some ⟨"completed", "/o", none⟩ := by
  refine ⟨(c3_amended Registry.empty "a" "/o" "completed" none).1,
    (c3_amended Registry.empty "a" "/o" "completed" none).2.1 rfl, ?_⟩
  exact (c3_amended (create_task Registry.empty "a" "/o") "a" "/o" "completed" none).2.2
    ⟨"pending", "/o", none⟩ rfl

/-- C5 counterexample: for markdown indexing with the explicit input
file notes.md, the resolved path is non-empty, but the directory rule
reduces it to the empty string and dispatch still succeeds, invoking the
handler with an empty directory instead of failing with
UnresolvableInput. -/
theorem c5_counterexample :
    resolved_input_path ⟨["notes.md"], .CREATE_MARKDOWN_INDEX, ⟨none, none, none⟩, "/out.md"⟩
      = "notes.md"
    ∧ dirname "notes.md" = ""
    ∧ resolve_invocation ⟨["notes.md"], .CREATE_MARKDOWN_INDEX, ⟨none, none, none⟩, "/out.md"⟩
      = .ok (.dir_call .create_markdown_index "" "/out.md") := by
  refine ⟨rfl, by decide, rfl⟩

/-- C5 amended: when a handler is registered, dispatch uses the first
element of input_files when non-empty and otherwise the operation's
configured default; the empty-path check fails dispatch with
UnresolvableInput, but it applies only to the path before the
directory-reduction rule — when that pre-reduction path is non-empty,
dispatch always succeeds, handing the handler the reduced path even when
the reduction produced the empty string. -/
theorem c5_amended (parsed : ParsedTask) (tag : HandlerTag)
    (hreg : handler_map parsed.operation = some tag) :
    (∀ p rest, parsed.input_files = p :: rest → resolved_input_path parsed = p)
    ∧ (parsed.input_files = [] →
        resolved_input_path parsed = (task_data_dirs parsed.operation).getD "")
    ∧ (resolved_input_path parsed = "" →
        resolve_invocation parsed = .error (.valueError
          ("No valid input path found for operation: " ++ parsed.operation.value)))
    ∧ (resolved_input_path parsed ≠ "" →
        ∃ inv, resolve_invocation parsed = .ok inv ∧
          inv.inputPath =
            (if parsed.operation = OperationType.EXTRACT_RECENT_LOGS ∨
                parsed.operation = OperationType.CREATE_MARKDOWN_INDEX then
              dirname (resolved_input_path parsed)
            else resolved_input_path parsed)) := by
  refine ⟨?_, ?_, ?_, ?_⟩
  · intro p rest h
    simp [resolved_input_path, h]
  · intro h
    simp [resolved_input_path, h]
  · intro h
    rw [resolve_invocation_of_handler parsed tag hreg, if_pos h]
  · intro h
    rw [resolve_invocation_of_handler parsed tag hreg, if_neg h]
    by_cases hc : parsed.operation = OperationType.COUNT_WEEKDAYS
    · rw [if_pos hc]
      have hd : ¬(parsed.operation = OperationType.EXTRACT_RECENT_LOGS ∨
          parsed.operation = OperationType.CREATE_MARKDOWN_INDEX) := by
        rw [hc]; decide
      exact ⟨_, rfl, by rw [if_neg hd]; rfl⟩
    · rw [if_neg hc]
      by_cases hd : parsed.operation = OperationType.EXTRACT_RECENT_LOGS ∨
          parsed.operation = OperationType.CREATE_MARKDOWN_INDEX
      · rw [if_pos hd]
        exact ⟨_, rfl, by rw [if_pos hd]; rfl⟩
      · rw [if_neg hd]
        exact ⟨_, rfl, by rw [if_neg hd]; rfl⟩

/-- Witness for C5: a markdown-indexing task with the explicit input
file a/notes.md dispatches successfully and the handler receives the
containing directory a. -/
theorem c5_amended_witness :
    ∃ inv, resolve_invocation
        ⟨["a/notes.md"], .CREATE_MARKDOWN_INDEX, ⟨none, none, none⟩, "/o"⟩ = .ok inv
      ∧ inv.inputPath = "a" := by
  obtain ⟨inv, h1, h2⟩ :=
    (c5_amended ⟨["a/notes.md"], .CREATE_MARKDOWN_INDEX, ⟨none, none, none⟩, "/o"⟩
      .create_markdown_index rfl).2.2.2 (by decide)
  refine ⟨inv, h1, ?_⟩
  rw [h2]
  decide

/-- C6: for the log-extraction and markdown-indexing operations, and
only for those, the resolved input path is reduced by the directory rule
before the handler is invoked; markdown indexing with no explicit input
file substitutes the configured default /data/docs, reduces it to /data,
and dispatch succeeds (it could raise UnresolvableInput only were that
default empty). -/
theorem c6_directory_reduction :
    (∀ params out, resolve_invocation ⟨[], .CREATE_MARKDOWN_INDEX, params, out⟩
        = .ok (.dir_call .create_markdown_index (dirname "/data/docs") out))
    ∧ dirname "/data/docs" = "/data"
    ∧ (∀ parsed inv, resolve_invocation parsed = .ok inv →
        (inv.isDirCall = true ↔
          (parsed.operation = OperationType.EXTRACT_RECENT_LOGS ∨
            parsed.operation = OperationType.CREATE_MARKDOWN_INDEX))
        ∧ (inv.isDirCall = true →
            inv.inputPath = dirname (resolved_input_path parsed))) := by
  refine ⟨fun params out => rfl, by decide, ?_⟩
  intro parsed inv h
  cases hm : handler_map parsed.operation with
  | none =>
    unfold resolve_invocation at h
    rw [hm] at h
    exact Except.noConfusion h
  | some tag =>
    rw [resolve_invocation_of_handler parsed tag hm] at h
    by_cases h0 : resolved_input_path parsed = ""
    · rw [if_pos h0] at h
      exact Except.noConfusion h
    · rw [if_neg h0] at h
      by_cases hc : parsed.operation = OperationType.COUNT_WEEKDAYS
      · rw [if_pos hc] at h
        injection h with h'
        subst h'
        refine ⟨⟨fun hfalse => ?_, fun hor => ?_⟩, fun hfalse => ?_⟩
        · exact absurd hfalse (by simp [Invocation.isDirCall])
        · exact absurd hor (by simp [hc])
        · exact absurd hfalse (by simp [Invocation.isDirCall])
      · rw [if_neg hc] at h
        by_cases hd : parsed.operation = OperationType.EXTRACT_RECENT_LOGS ∨
            parsed.operation = OperationType.CREATE_MARKDOWN_INDEX
        · rw [if_pos hd] at h
          injection h with h'
          subst h'
          exact ⟨⟨fun _ => hd, fun _ => rfl⟩, fun _ => rfl⟩
        · rw [if_neg hd] at h
          injection h with h'
          subst h'
          refine ⟨⟨fun hfalse => ?_, fun hor => absurd hor hd⟩, fun hfalse => ?_⟩
          · exact absurd hfalse (by simp [Invocation.isDirCall])
          · exact absurd hfalse (by simp [Invocation.isDirCall])

/-- Witness for C6: a log-extraction task with no explicit input file
receives the directory reduction of its default path /data/logs. -/
theorem c6_witness :
    (Invocation.dir_call HandlerTag.extract_recent_logs "/data" "/o").isDirCall = true
    ∧ (Invocation.dir_call HandlerTag.extract_recent_logs "/data" "/o").inputPath
      = dirname (resolved_input_path
          ⟨[], OperationType.EXTRACT_RECENT_LOGS, ⟨none, none, none⟩, "/o"⟩) := by
  have h := c6_directory_reduction.2.2
    ⟨[], OperationType.EXTRACT_RECENT_LOGS, ⟨none, none, none⟩, "/o"⟩
    (.dir_call .extract_recent_logs "/data" "/o") rfl
  exact ⟨h.1.mpr (Or.inl rfl), h.2 (h.1.mpr (Or.inl rfl))⟩

/-- C7: for the weekday-count operation, an absent parameters.weekday is
dispatched as Wednesday, and the count depends on the supplied weekday
name only through its title-case normalization, so the case variants
monday and Monday produce identical results on every input file. -/
theorem c7_weekday_normalization (w1 w2 : String) (lines : List String)
    (hcap : pyCapitalize w1 = pyCapitalize w2) :
    count_weekdays lines w1 = count_weekdays lines w2
    ∧ pyCapitalize "monday" = pyCapitalize "Monday"
    ∧ (∀ parsed : ParsedTask, parsed.operation = OperationType.COUNT_WEEKDAYS →
        parsed.parameters.weekday = none →
        ∀ inv, resolve_invocation parsed = .ok inv →
          inv = .count_weekdays_call (resolved_input_path parsed) "Wednesday"
            parsed.output_file) := by
  refine ⟨?_, by decide, ?_⟩
  · unfold count_weekdays
    rw [hcap]
  · intro parsed hop hw inv h
    rw [resolve_invocation_of_handler parsed HandlerTag.count_weekdays
      (by rw [hop]; rfl)] at h
    by_cases h0 : resolved_input_path parsed = ""
    · rw [if_pos h0] at h
      exact Except.noConfusion h
    · rw [if_neg h0, if_pos hop, hw] at h
      injection h with h'
      exact h'.symm

/-- Witness for C7: the counts for monday and Monday agree on a concrete
file of dates, and a concrete weekday-count dispatch with an absent
weekday receives Wednesday. -/
theorem c7_witness :
    count_weekdays ["2024-01-01", "2024-01-08", "2024-01-10"] "monday"
      = count_weekdays ["2024-01-01", "2024-01-08", "2024-01-10"] "Monday"
    ∧ Invocation.count_weekdays_call "./data/dates" "Wednesday" "/o"
      = .count_weekdays_call
          (resolved_input_path ⟨[], OperationType.COUNT_WEEKDAYS, ⟨none, none, none⟩, "/o"⟩)
          "Wednesday" "/o" := by
  have h := c7_weekday_normalization "monday" "Monday"
    ["2024-01-01", "2024-01-08", "2024-01-10"] (by decide)
  refine ⟨h.1, ?_⟩
  exact (h.2.2 ⟨[], OperationType.COUNT_WEEKDAYS, ⟨none, none, none⟩, "/o"⟩ rfl rfl
    (.count_weekdays_call "./data/dates" "Wednesday" "/o") rfl).symm.symm

/-- C8: whenever parsing or dispatch resolution fails, the POST /tasks
request returns 400 with the error message, no record is created (the
registry is returned unchanged) and no background unit is started, so no
task id outlives the failing request. -/
theorem c8_sync_failure_atomicity (reg : Registry) (task_id : String)
    (resp : FetchResult) (run : Invocation → Except PyExc Unit) (e : PyExc)
    (h : parse_task_description resp = .error e ∨
      ∃ parsed, parse_task_description resp = .ok parsed ∧
        resolve_invocation parsed = .error e) :
    handle_task reg task_id resp run = (⟨400, .errorMsg e.str⟩, reg, false) := by
  have hex : execute resp run = .error e := by
    unfold execute
    rcases h with h | ⟨parsed, h1, h2⟩
    · rw [h]; rfl
    · rw [h1]
      show (resolve_invocation parsed).bind run = .error e
      rw [h2]; rfl
  unfold handle_task
  rw [hex]

/-- Witness for C8: an upstream HTTP fault yields a 400 response with
the translated message and leaves the empty registry empty. -/
theorem c8_witness :
    handle_task Registry.empty "tid" (.httpError "boom") (fun _ => .ok ())
      = (⟨400, .errorMsg "AI Proxy error: boom"⟩, Registry.empty, false) :=
  c8_sync_failure_atomicity Registry.empty "tid" (.httpError "boom") (fun _ => .ok ())
    (.runtimeError "AI Proxy error: boom") (Or.inl rfl)

/-- C2 counterexample: an arguments payload whose operation string is
outside the enumeration makes the parser raise the raw ValueError of the
enum constructor — an exception that is neither of the two kinds its
except clauses translate. -/
theorem c2_counterexample :
    parse_task_description
        (.ok (.arguments (.obj none (some "bogus") .absent (some "/out.txt"))))
      = .error (.valueError "bogus is not a valid OperationType")
    ∧ PyExc.isTranslated (.valueError "bogus is not a valid OperationType") = false :=
  ⟨rfl, rfl⟩

/-- C2 amended: the parser never returns a ParsedTask whose operation is
outside the closed enumeration, and it translates upstream HTTP failures
and missing required keys into its two deliberate error kinds; but a
malformed arguments payload, an empty choices list, an out-of-enumeration
operation string, or an unexpected parameters key propagates as a raw
exception of another kind. -/
theorem c2_amended (resp : FetchResult) :
    (∀ t, parse_task_description resp = .ok t →
      t.operation.value ∈ OperationType.values)
    ∧ (∀ e, parse_task_description resp = .error e →
        e.isTranslated = translatedCause resp) := by
  constructor
  · intro t _
    cases t.operation <;> simp [OperationType.value, OperationType.values]
  · intro e he
    rcases resp with body | r
    · simp only [parse_task_description, Except.error.injEq] at he
      rw [← he]; rfl
    · rcases r with k | _ | raw
      · simp only [parse_task_description, Except.error.injEq] at he
        rw [← he]; rfl
      · simp only [parse_task_description, Except.error.injEq] at he
        rw [← he]; rfl
      · rcases raw with _ | ⟨ifiles, op?, params, out?⟩
        · simp only [parse_task_description, Except.error.injEq] at he
          rw [← he]; rfl
        · rcases op? with _ | s
          · simp only [parse_task_description, Except.error.injEq] at he
            rw [← he]; rfl
          · rcases hov : OperationType.ofValue s with _ | op
            · simp only [parse_task_description, hov, Except.error.injEq] at he
              rw [← he]
              simp [translatedCause, hov, PyExc.isTranslated]
            · rcases params with _ | ⟨w, su, li⟩ | k
              · rcases out? with _ | outf
                · simp only [parse_task_description, hov, Except.error.injEq] at he
                  rw [← he]
                  simp [translatedCause, hov, PyExc.isTranslated]
                · simp only [parse_task_description, hov] at he
                  exact Except.noConfusion he
              · rcases out? with _ | outf
                · simp only [parse_task_description, hov, Except.error.injEq] at he
                  rw [← he]
                  simp [translatedCause, hov, PyExc.isTranslated]
                · simp only [parse_task_description, hov] at he
                  exact Except.noConfusion he
              · simp only [parse_task_description, hov, Except.error.injEq] at he
                rw [← he]
                simp [translatedCause, hov, PyExc.isTranslated]

/-- Witness for C2: a well-formed payload yields an in-enumeration
operation, and an HTTP fault is translated. -/
theorem c2_amended_witness :
    OperationType.value OperationType.FORMAT_MARKDOWN ∈ OperationType.values
    ∧ PyExc.isTranslated (.runtimeError "AI Proxy error: boom")
      = translatedCause (.httpError "boom") := by
  constructor
  · exact (c2_amended
      (.ok (.arguments (.obj none (some "format_markdown") .absent (some "/o"))))).1
      ⟨[], .FORMAT_MARKDOWN, ⟨none, none, none⟩, "/o"⟩ rfl
  · exact (c2_amended (.httpError "boom")).2 (.runtimeError "AI Proxy error: boom") rfl

/-- C1, code-bug demonstration: on an accepted submission the handler
runs synchronously inside the request — a handler failure is returned
directly as a 400 with no record created — and when the handler
succeeds, the spawned background unit (whose body evaluates the
undefined name parsed) transitions the freshly created pending record to
error with the NameError message instead of completed. -/
theorem c1_async_contract_code_bug :
    handle_task Registry.empty "tid"
        (.ok (.arguments (.obj (some ["/data/report.md"]) (some "format_markdown")
          .absent (some "/data/out.md"))))
        (fun _ => .error (.valueError "OperationError: missing input file"))
      = (⟨400, .errorMsg "OperationError: missing input file"⟩, Registry.empty, false)
    ∧ (handle_task Registry.empty "tid"
        (.ok (.arguments (.obj (some ["/data/report.md"]) (some "format_markdown")
          .absent (some "/data/out.md"))))
        (fun _ => .ok ())).1 = ⟨202, .taskIdBody "tid"⟩
    ∧ get_task (handle_task Registry.empty "tid"
        (.ok (.arguments (.obj (some ["/data/report.md"]) (some "format_markdown")
          .absent (some "/data/out.md"))))
        (fun _ => .ok ())).2.1 "tid"
      = some ⟨"pending", "./task_results/tid.out", none⟩
    ∧ get_task (background_task (handle_task Registry.empty "tid"
        (.ok (.arguments (.obj (some ["/data/report.md"]) (some "format_markdown")
          .absent (some "/data/out.md"))))
        (fun _ => .ok ())).2.1 "tid") "tid"
      = some ⟨"error", "./task_results/tid.out", some "name parsed is not defined"⟩ := by
  exact ⟨rfl, rfl, rfl, rfl⟩

end FnCall
